import Mathlib

/-!
Verification development for the `21 search` marketplace command
(`two1/commands/search.py`): the paginated interactive browsing loop.

The embedding models the module's functions directly from the source:
`get_next_page`, `market_search_formatter`, `get_search_results`,
`display_search_info`, and the interactive loop of `_search`.  The remote
HTTP service (REST client) is an external collaborator and is modelled as
an abstract environment of response functions; console styling
(`click.style`), table layout (`tabulate`) and line wrapping
(`textwrap.wrap`) are display-only externals kept abstract, since no
verified property depends on the rendered text layout.  Python `dict`
becomes an association list with explicit state passing; Python exceptions
(`click.exceptions.Abort`, `ValueError`, `ServerRequestError`) become
explicit control-flow constructors.
-/

namespace TwoOneSearch

/-- Whitespace characters stripped by Python `int()` before parsing
(ASCII subset of `str.strip`). -/
def isPyWs (c : Char) : Bool :=
  c = ' ' || c = '\t' || c = '\n' || c = '\r' || c = '\x0b' || c = '\x0c'

/-- ASCII decimal digit test, stated on `Char.toNat` (code points 48-57). -/
def isAsciiDigit (c : Char) : Bool :=
  48 ≤ c.toNat && c.toNat ≤ 57

/-- After the digits of an integer literal, Python `int()` accepts only
trailing whitespace. -/
def pyIntTrail : List Char → Bool
  | [] => true
  | c :: cs => isPyWs c && pyIntTrail cs

/-- Digit-consuming state of the `int()` parser: accumulate decimal digits,
then allow trailing whitespace. -/
def pyIntDigits (acc : Nat) : List Char → Option Nat
  | [] => some acc
  | c :: cs =>
    if isAsciiDigit c then pyIntDigits (10 * acc + (c.toNat - 48)) cs
    else if isPyWs c then (if pyIntTrail cs then some acc else none)
    else none

/-- After a sign character, `int()` requires the first digit immediately. -/
def pyIntFirstDigit : List Char → Option Nat
  | [] => none
  | c :: cs => if isAsciiDigit c then pyIntDigits (c.toNat - 48) cs else none

/-- Start state of the `int()` parser: skip leading whitespace, then an
optional sign, then one or more digits, then optional trailing whitespace. -/
def pyIntStart : List Char → Option Int
  | [] => none
  | c :: cs =>
    if isPyWs c then pyIntStart cs
    else if c = '+' then (pyIntFirstDigit cs).map Int.ofNat
    else if c = '-' then (pyIntFirstDigit cs).map (fun n => -(n : Int))
    else if isAsciiDigit c then (pyIntDigits (c.toNat - 48) cs).map Int.ofNat
    else none

/-- Python `int(s)` on ASCII input: `some n` when `s` is a valid decimal
integer literal (optional surrounding whitespace, optional sign), `none`
when `int` would raise `ValueError`. -/
def pyInt? (s : String) : Option Int :=
  pyIntStart s.data

/-- Python `s.lower()` on ASCII input: character-wise lower casing. -/
def py_lower (s : String) : String :=
  ⟨s.data.map Char.toLower⟩

/-- One summary object of the search endpoint's `results` array.  Fields as
listed by the external interface contract; `id` is the opaque listing
identifier that the detail endpoint accepts. -/
structure ListingSummary where
  title : String
  username : String
  min_price : Int
  max_price : Int
  category : String
  description : String
  id : Nat
deriving DecidableEq, Repr

/-- Response of the search endpoint: `ok` status, the `results` array
(`none` models JSON `null`), and the `total_pages` count. -/
structure SearchResponse where
  ok : Bool
  results : Option (List ListingSummary)
  total_pages : Int
deriving DecidableEq, Repr

/-- One detail record of the detail endpoint (`resp.json()` in
`display_search_info`).  `updated` is the raw unix timestamp and
`average_uptime` the raw uptime fraction; their display formatting
(`datetime.strftime`, float `%` rendering) is external and display-only. -/
structure ListingDetail where
  title : String
  username : String
  description : String
  min_price : Int
  max_price : Int
  website_url : String
  app_url : String
  category : String
  keywords : List String
  version : String
  updated : Int
  is_active : Bool
  is_up : Bool
  is_healthy : Bool
  average_uptime : Rat
  quick_buy : String
  usage_docs : String
deriving DecidableEq, Repr

/-- Response of the detail endpoint; `json` is only consulted when `ok`. -/
structure DetailResponse where
  ok : Bool
  json : ListingDetail
deriving DecidableEq, Repr

/-- The external REST service, abstracted: `search` answers
`rest_client.search(search_string, page)` and `detail` answers
`client.get_listing_info(listing_id)`. -/
structure Env where
  search : Option String → Int → SearchResponse
  detail : Nat → DetailResponse

/-- Python exceptions that escape a component: `ServerRequestError` from a
non-ok endpoint response, `Abort` from `click` (cancel keyword or
interrupt). -/
inductive PyError where
  | serverRequestError
  | abort
deriving DecidableEq, Repr

/-- The `row_id_to_model_id` dict: association list from displayed row
index (a Python int) to listing identifier. -/
def RowMap := List (Int × Nat)
deriving DecidableEq, Repr

/-- Dict lookup `row_id_to_model_id[index]` / membership `index in ...`. -/
def RowMap.find? (m : RowMap) (k : Int) : Option Nat :=
  List.lookup k m

/-- Number of entries of the dict (`len`). -/
def RowMap.size (m : RowMap) : Nat :=
  List.length m

/-- The constant `MAX_PAGE_SIZE = 10`. -/
def MAX_PAGE_SIZE : Int := 10

/-- External `click.style`: ANSI colouring only, the text content is
unchanged; modelled as the identity on the text. -/
def click_style (s : String) : String := s

/-- External `textwrap.wrap`: display-only line wrapping of the listing
description; kept abstract as a one-line wrap, since no verified property
depends on the wrapped layout. -/
def textwrap_wrap (s : String) : List String := [s]

/-- External `tabulate` output, kept structural: the headers and rows it
was given. -/
structure Table where
  headers : List String
  rows : List (List String)
deriving DecidableEq, Repr

/-- Embeds `market_search_formatter(search_results, current_page,
row_id_to_model_id)`.  It builds the display rows (row index
`current_page * MAX_PAGE_SIZE + i + 1` in the id column) and returns the
tabulated content together with the dict as the function leaves it: the
source never assigns into `row_id_to_model_id`, so the dict passes through
unchanged. -/
def market_search_formatter (search_results : List ListingSummary)
    (current_page : Int) (row_id_to_model_id : RowMap) : Table × RowMap :=
  let headers := ["id", "Details", "Creator", "price range", "category"]
  let rows := (search_results.enum).flatMap (fun p =>
    let i := p.1
    let item := p.2
    let rowId := click_style (toString (current_page * MAX_PAGE_SIZE + (i : Int) + 1))
    let price_range := click_style (toString item.min_price ++ " - " ++
      toString item.max_price ++ " Satoshis")
    let category := click_style item.category
    let creator := click_style item.username
    let title := click_style item.title
    [[rowId, title, creator, price_range, category],
     ["", "", "", "", ""]] ++
    (textwrap_wrap item.description).map (fun l => ["", l, "", "", ""]) ++
    [["", "", "", "", ""]])
  (⟨headers, rows⟩, row_id_to_model_id)

/-- Embeds `get_search_results(rest_client, search_string, page,
row_id_to_model_id)`: calls the search endpoint; on a non-ok response
raises `ServerRequestError`; on an ok response with `null` or empty
`results` prints the empty-listing notice and returns `0`; otherwise
formats the page and returns the response's `total_pages`.  The returned
pair carries the function's return value and the dict state after the
call (mutation made explicit). -/
def get_search_results (env : Env) (search_string : Option String)
    (page : Int) (row_id_to_model_id : RowMap) : Except PyError (Int × RowMap) :=
  let resp := env.search search_string page
  if resp.ok then
    match resp.results with
    | none => .ok (0, row_id_to_model_id)
    | some search_results =>
      if search_results.length = 0 then
        .ok (0, row_id_to_model_id)
      else
        let total_pages := resp.total_pages
        let fm := market_search_formatter search_results page row_id_to_model_id
        .ok (total_pages, fm.2)
  else
    .error .serverRequestError

/-- Result of `get_next_page`: a target page number, or the raised
`click.exceptions.Abort` on a cancel keyword. -/
inductive NavResult where
  | page (n : Int)
  | abort
deriving DecidableEq, Repr

/-- Embeds `get_next_page(prompt_response, current_page)`: case-insensitive
keyword dispatch to next page, previous page, abort, or the `-1`
sentinel. -/
def get_next_page (prompt_response : String) (current_page : Int) : NavResult :=
  if py_lower prompt_response ∈ ["n", "next", "f", "forward"] then
    .page (current_page + 1)
  else if py_lower prompt_response ∈ ["p", "previous", "b", "back"] then
    .page (current_page - 1)
  else if py_lower prompt_response ∈ ["q", "cancel", "c"] then
    .abort
  else
    .page (-1)

/-- The detail view assembled by `display_search_info`.  String fields are
the assembled labelled lines; `last_update_raw` and `availability_raw`
carry the raw timestamp and uptime fraction whose display formatting
(`datetime.strftime`, `"{:.2f}%"`) is external and display-only. -/
structure RenderedDetail where
  title : String
  created_by : String
  desc : String
  price : String
  doc_url : String
  app_url : String
  category : String
  keywords : String
  version : String
  last_update_raw : Int
  quick_start : String
  is_active : String
  availability_raw : Rat
  usage_docs : String
deriving DecidableEq, Repr

/-- Embeds `display_search_info(config, client, listing_id)`: fetches the
detail record; on a non-ok response raises `ServerRequestError`; otherwise
assembles the labelled detail lines (paged to the display) and returns
them.  The status line reads `Active` exactly when `is_active`, `is_up`
and `is_healthy` are all true. -/
def display_search_info (env : Env) (listing_id : Nat) :
    Except PyError RenderedDetail :=
  let resp := env.detail listing_id
  if resp.ok then
    let result_json := resp.json
    let title := click_style "App Name     : " ++ click_style result_json.title
    let created_by := click_style "Created By   : " ++ click_style result_json.username
    let desc := click_style "Description  : " ++ click_style result_json.description
    let price := click_style "Price Range  : " ++
      click_style (toString result_json.min_price ++ " - " ++
        toString result_json.max_price ++ " Satoshis")
    let doc_url := click_style "Docs URL     : " ++ click_style result_json.website_url
    let app_url := click_style "App URL      : " ++ click_style result_json.app_url
    let category := click_style "Category     : " ++ click_style result_json.category
    let keywords := click_style "Keywords     : " ++
      click_style (String.intercalate ", " result_json.keywords)
    let version := click_style "Version      : " ++ click_style result_json.version
    let quick_start := click_style "Quick Start\n\n" ++ click_style result_json.quick_buy
    let is_active :=
      if result_json.is_active && result_json.is_up && result_json.is_healthy then
        click_style "Status       : " ++ click_style "Active"
      else
        click_style "Status       : " ++ click_style "Inactive"
    let usage_docs := click_style "Detailed usage\n\n" ++ click_style result_json.usage_docs
    .ok { title := title, created_by := created_by, desc := desc, price := price,
          doc_url := doc_url, app_url := app_url, category := category,
          keywords := keywords, version := version,
          last_update_raw := result_json.updated, quick_start := quick_start,
          is_active := is_active, availability_raw := result_json.average_uptime,
          usage_docs := usage_docs }
  else
    .error .serverRequestError

/-- Loop state of `_search`: the local variables live across iterations. -/
structure BrowseState where
  current_page : Int
  total_pages : Int
  row_map : RowMap
deriving DecidableEq, Repr

/-- What one prompt produced: a line of user input, or the `Abort` that
`click.prompt` raises on interrupt. -/
inductive Input where
  | line (s : String)
  | interrupt
deriving DecidableEq, Repr

/-- How one loop iteration ends: continue with a (possibly updated) state,
return from `_search` (the outer `except Abort` handler), or propagate an
uncaught exception. -/
inductive StepOutcome where
  | next (st : BrowseState)
  | returned
  | raised (e : PyError)
deriving DecidableEq, Repr

/-- Observable effects of one loop iteration: pages requested from the
search endpoint and listing ids requested from the detail endpoint. -/
structure StepTrace where
  outcome : StepOutcome
  fetches : List Int
  detailFetches : List Nat
deriving DecidableEq, Repr

/-- Navigation branch of the loop body (the `except ValueError` handler):
parse the input as a navigation keyword; an out-of-range target is
`continue`; an in-range target fetches that page, discards the returned
page count, and sets `current_page`; a cancel keyword's `Abort` is caught
by the outer handler and returns. -/
def navStep (env : Env) (search_string : Option String) (st : BrowseState)
    (prompt_resp : String) : StepTrace :=
  match get_next_page prompt_resp st.current_page with
  | .abort => ⟨.returned, [], []⟩
  | .page next_page =>
    if next_page ≥ st.total_pages ∨ next_page < 0 then
      ⟨.next st, [], []⟩
    else
      match get_search_results env search_string next_page st.row_map with
      | .ok r => ⟨.next ⟨next_page, st.total_pages, r.2⟩, [next_page], []⟩
      | .error e => ⟨.raised e, [next_page], []⟩

/-- One iteration of the `while` loop of `_search`, given what the prompt
produced.  A line that parses as an `int` and is a key of the dict
displays the detail record (a non-ok detail response propagates
`ServerRequestError`); a line that fails to parse, or whose number is not
a key, falls to the navigation branch; the prompt's own `Abort` is caught
and returns. -/
def search_step (env : Env) (search_string : Option String) (st : BrowseState) :
    Input → StepTrace
  | .interrupt => ⟨.returned, [], []⟩
  | .line prompt_resp =>
    match pyInt? prompt_resp with
    | some index =>
      match st.row_map.find? index with
      | some model_id =>
        match display_search_info env model_id with
        | .ok _ => ⟨.next st, [], [model_id]⟩
        | .error e => ⟨.raised e, [], [model_id]⟩
      | none => navStep env search_string st prompt_resp
    | none => navStep env search_string st prompt_resp

/-- How the interactive loop stands after consuming a list of prompt
inputs: returned to the caller, died on an uncaught exception, or still
browsing and about to prompt again with the given state. -/
inductive LoopResult where
  | finished
  | raised (e : PyError)
  | pending (st : BrowseState)
deriving DecidableEq, Repr

/-- The guard `0 <= current_page < total_pages` of the `while` loop. -/
def loopCond (st : BrowseState) : Prop :=
  0 ≤ st.current_page ∧ st.current_page < st.total_pages

instance (st : BrowseState) : Decidable (loopCond st) :=
  inferInstanceAs (Decidable (_ ∧ _))

/-- The `while 0 <= current_page < total_pages` loop of `_search`, run over
a finite list of prompt inputs.  The condition is re-checked before every
prompt; exhausting the inputs while it still holds leaves the session
`pending` at the next prompt. -/
def search_loop (env : Env) (search_string : Option String) :
    List Input → BrowseState → LoopResult
  | [], st => if loopCond st then .pending st else .finished
  | inp :: rest, st =>
    if loopCond st then
      match (search_step env search_string st inp).outcome with
      | .next st' => search_loop env search_string rest st'
      | .returned => .finished
      | .raised e => .raised e
    else
      .finished

/-- Overall result of `_search`: returned before the loop because the
initial fetch produced no pages (`total_pages < 1`, no prompt ever
shown), or the initial fetch raised, or the loop ran. -/
inductive SessionResult where
  | noResults
  | initFailed (e : PyError)
  | loopResult (r : LoopResult)
deriving DecidableEq, Repr

/-- Embeds `_search(config, search_string)` (over a finite list of prompt
inputs): fetch page 0 into an empty dict; if the returned page count is
below 1, return without prompting; otherwise run the interactive loop
from page 0. -/
def searchSession (env : Env) (search_string : Option String)
    (inputs : List Input) : SessionResult :=
  match get_search_results env search_string 0 [] with
  | .error e => .initFailed e
  | .ok r =>
    if r.1 < 1 then
      .noResults
    else
      .loopResult (search_loop env search_string inputs ⟨0, r.1, r.2⟩)

/-- A fixed demo detail record with all three health flags true. -/
def demoDetail : ListingDetail :=
  ⟨"Chess", "alice", "Play chess for satoshis", 1, 100, "http://docs.example",
   "http://app.example", "games", ["fun", "games"], "1.0", 1450000000,
   true, true, true, (9 : Rat) / 10, "21 buy chess", "Run the client"⟩

/-- A demo listing summary. -/
def demoItem (k : Nat) : ListingSummary :=
  ⟨"app" ++ toString k, "alice", 1, 100, "games", "A fun app", 100 + k⟩

/-- Demo marketplace: two pages (three listings on page 0, one on page 1),
every detail request answered ok. -/
def demoEnv : Env where
  search := fun _ p =>
    if p = 0 then ⟨true, some [demoItem 1, demoItem 2, demoItem 3], 2⟩
    else ⟨true, some [demoItem 11], 2⟩
  detail := fun _ => ⟨true, demoDetail⟩

/-- Demo service with no matches: an ok response with an empty results
array. -/
def emptyEnv : Env where
  search := fun _ _ => ⟨true, some [], 0⟩
  detail := fun _ => ⟨true, demoDetail⟩

/-- Demo service with a single page of three listings (three total
results). -/
def smallEnv : Env where
  search := fun _ _ => ⟨true, some [demoItem 1, demoItem 2, demoItem 3], 1⟩
  detail := fun _ => ⟨true, demoDetail⟩

/-- Demo service whose every response is a transport failure. -/
def failEnv : Env where
  search := fun _ _ => ⟨false, none, 0⟩
  detail := fun _ => ⟨false, demoDetail⟩

/-- Demo service that reports three pages on the initial fetch but answers
any further page with an empty result set. -/
def shrinkEnv : Env where
  search := fun _ p =>
    if p = 0 then ⟨true, some [demoItem 1, demoItem 2, demoItem 3], 3⟩
    else ⟨true, some [], 0⟩
  detail := fun _ => ⟨true, demoDetail⟩

/-! Helper lemmas about the `int()` embedding: a string accepted by
`pyInt?` consists of whitespace, sign and digit characters only, all of
which are fixed by lower casing, so an accepted string is never a
navigation keyword. -/

/-- Character classes that can occur in a string accepted by `pyInt?`. -/
def isIntChar (c : Char) : Bool :=
  isAsciiDigit c || isPyWs c || c = '+' || c = '-'

theorem toLower_eq_self_of_isIntChar {c : Char} (h : isIntChar c = true) :
    c.toLower = c := by
  have hcond : ¬ (65 ≤ c.toNat ∧ c.toNat ≤ 90) := by
    simp only [isIntChar, isAsciiDigit, isPyWs, Bool.or_eq_true, decide_eq_true_eq,
      Bool.and_eq_true] at h
    rcases h with ((⟨h1, h2⟩ | hw) | hp) | hm
    · omega
    · rcases hw with ((((h | h) | h) | h) | h) | h <;> subst h <;> decide
    · subst hp; decide
    · subst hm; decide
  simp only [Char.toLower, hcond, if_false]

theorem pyIntTrail_chars : ∀ cs : List Char, pyIntTrail cs = true →
    ∀ c ∈ cs, isIntChar c = true
  | [], _, c, hc => absurd hc (List.not_mem_nil c)
  | a :: cs, h, c, hc => by
    simp only [pyIntTrail, Bool.and_eq_true] at h
    rcases List.mem_cons.mp hc with rfl | hc
    · simp [isIntChar, h.1]
    · exact pyIntTrail_chars cs h.2 c hc

theorem pyIntDigits_chars : ∀ (acc : Nat) (cs : List Char) (n : Nat),
    pyIntDigits acc cs = some n → ∀ c ∈ cs, isIntChar c = true
  | _, [], _, _, c, hc => absurd hc (List.not_mem_nil c)
  | acc, a :: cs, n, h, c, hc => by
    simp only [pyIntDigits] at h
    rcases List.mem_cons.mp hc with rfl | hc
    · by_cases hd : isAsciiDigit c = true
      · simp [isIntChar, hd]
      · rw [if_neg hd] at h
        by_cases hw : isPyWs c = true
        · simp [isIntChar, hw]
        · rw [if_neg hw] at h; exact absurd h (by simp)
    · by_cases hd : isAsciiDigit a = true
      · rw [if_pos hd] at h
        exact pyIntDigits_chars _ cs n h c hc
      · rw [if_neg hd] at h
        by_cases hw : isPyWs a = true
        · rw [if_pos hw] at h
          by_cases ht : pyIntTrail cs = true
          · exact pyIntTrail_chars cs ht c hc
          · rw [if_neg ht] at h; exact absurd h (by simp)
        · rw [if_neg hw] at h; exact absurd h (by simp)

theorem pyIntFirstDigit_chars (cs : List Char) (n : Nat)
    (h : pyIntFirstDigit cs = some n) : ∀ c ∈ cs, isIntChar c = true := by
  match cs with
  | [] => intro c hc; exact absurd hc (List.not_mem_nil c)
  | a :: cs =>
    simp only [pyIntFirstDigit] at h
    by_cases hd : isAsciiDigit a = true
    · rw [if_pos hd] at h
      intro c hc
      rcases List.mem_cons.mp hc with rfl | hc
      · simp [isIntChar, hd]
      · exact pyIntDigits_chars _ cs n h c hc
    · rw [if_neg hd] at h; exact absurd h (by simp)

theorem pyIntStart_chars : ∀ (cs : List Char) (z : Int),
    pyIntStart cs = some z → ∀ c ∈ cs, isIntChar c = true
  | [], _, h => by simp [pyIntStart] at h
  | a :: cs, z, h => by
    simp only [pyIntStart] at h
    intro c hc
    by_cases hw : isPyWs a = true
    · rw [if_pos hw] at h
      rcases List.mem_cons.mp hc with rfl | hc
      · simp [isIntChar, hw]
      · exact pyIntStart_chars cs z h c hc
    · rw [if_neg hw] at h
      by_cases hp : a = '+'
      · rw [if_pos hp] at h
        cases hfd : pyIntFirstDigit cs with
        | none => rw [hfd] at h; simp at h
        | some m =>
          rcases List.mem_cons.mp hc with rfl | hc
          · simp [isIntChar, hp]
          · exact pyIntFirstDigit_chars cs m hfd c hc
      · rw [if_neg hp] at h
        by_cases hm2 : a = '-'
        · rw [if_pos hm2] at h
          cases hfd : pyIntFirstDigit cs with
          | none => rw [hfd] at h; simp at h
          | some m =>
            rcases List.mem_cons.mp hc with rfl | hc
            · simp [isIntChar, hm2]
            · exact pyIntFirstDigit_chars cs m hfd c hc
        · rw [if_neg hm2] at h
          by_cases hd : isAsciiDigit a = true
          · rw [if_pos hd] at h
            cases hfd : pyIntDigits (a.toNat - 48) cs with
            | none => rw [hfd] at h; simp at h
            | some m =>
              rcases List.mem_cons.mp hc with rfl | hc
              · simp [isIntChar, hd]
              · exact pyIntDigits_chars _ cs m hfd c hc
          · rw [if_neg hd] at h; exact absurd h (by simp)

/-- A string that `int()` accepts is fixed by `.lower()`. -/
theorem py_lower_eq_of_pyInt {s : String} {n : Int} (h : pyInt? s = some n) :
    py_lower s = s := by
  have hchars := pyIntStart_chars s.data n h
  unfold py_lower
  cases s with
  | mk data =>
    congr 1
    calc data.map Char.toLower
        = data.map id := List.map_congr_left
            (fun c hc => toLower_eq_self_of_isIntChar (hchars c hc))
      _ = data := List.map_id data

/-- No navigation or cancel keyword parses as an integer. -/
theorem pyInt_keyword_none :
    ∀ k ∈ (["n", "next", "f", "forward", "p", "previous", "b", "back",
            "q", "cancel", "c"] : List String), pyInt? k = none := by
  decide

/-- A prompt line that `int()` accepts falls through `get_next_page` to the
`-1` sentinel: it matches no navigation and no cancel keyword. -/
theorem get_next_page_of_pyInt {s : String} {n : Int}
    (h : pyInt? s = some n) (current_page : Int) :
    get_next_page s current_page = .page (-1) := by
  have hl : py_lower s = s := py_lower_eq_of_pyInt h
  have hk : ∀ k ∈ (["n", "next", "f", "forward", "p", "previous", "b", "back",
      "q", "cancel", "c"] : List String), py_lower s ≠ k := by
    intro k hkmem heq
    have : pyInt? k = none := pyInt_keyword_none k hkmem
    rw [← heq, hl] at this
    rw [this] at h
    exact Option.noConfusion h
  unfold get_next_page
  rw [if_neg, if_neg, if_neg]
  · intro hmem
    simp only [List.mem_cons, List.not_mem_nil, or_false] at hmem
    rcases hmem with h1 | h1 | h1 <;> exact hk _ (by simp) h1
  · intro hmem
    simp only [List.mem_cons, List.not_mem_nil, or_false] at hmem
    rcases hmem with h1 | h1 | h1 | h1 <;> exact hk _ (by simp) h1
  · intro hmem
    simp only [List.mem_cons, List.not_mem_nil, or_false] at hmem
    rcases hmem with h1 | h1 | h1 | h1 <;> exact hk _ (by simp) h1

/-! Helper lemmas about the fetch path and the loop. -/

/-- The formatter leaves the row dict exactly as it received it: the
source of `market_search_formatter` never assigns into
`row_id_to_model_id`. -/
theorem market_search_formatter_map (search_results : List ListingSummary)
    (current_page : Int) (m : RowMap) :
    (market_search_formatter search_results current_page m).2 = m := rfl

/-- A successful `get_search_results` call returns the dict unchanged. -/
theorem get_search_results_ok_map {env : Env} {q : Option String} {p : Int}
    {m : RowMap} {r : Int × RowMap}
    (h : get_search_results env q p m = .ok r) : r.2 = m := by
  simp only [get_search_results] at h
  split at h
  · split at h
    · cases h; rfl
    · split at h
      · cases h; rfl
      · cases h; rfl
  · exact absurd h (by simp)

/-- `get_search_results` raises `ServerRequestError` exactly when the
search endpoint's response is not ok. -/
theorem get_search_results_error_iff (env : Env) (q : Option String)
    (p : Int) (m : RowMap) :
    get_search_results env q p m = .error .serverRequestError ↔
      (env.search q p).ok = false := by
  constructor
  · intro h
    simp only [get_search_results] at h
    split at h
    · split at h
      · exact absurd h (by simp)
      · split at h
        · exact absurd h (by simp)
        · exact absurd h (by simp)
    · rename_i hok
      simpa using hok
  · intro h
    unfold get_search_results
    rw [if_neg]
    simp [h]

/-- `display_search_info` raises `ServerRequestError` exactly when the
detail endpoint's response is not ok. -/
theorem display_search_info_error_iff (env : Env) (listing_id : Nat) :
    display_search_info env listing_id = .error .serverRequestError ↔
      (env.detail listing_id).ok = false := by
  unfold display_search_info
  by_cases hok : (env.detail listing_id).ok = true
  · rw [if_pos hok]
    constructor
    · intro h; exact absurd h (by simp)
    · intro h; rw [hok] at h; exact absurd h (by simp)
  · rw [if_neg hok]
    simp only [Bool.not_eq_true] at hok
    simp [hok]

/-- No loop iteration ever changes `total_pages`: the in-loop fetch's
returned page count is discarded. -/
theorem navStep_next_total_pages {env : Env} {q : Option String}
    {st st' : BrowseState} {s : String}
    (hn : (navStep env q st s).outcome = .next st') :
    st'.total_pages = st.total_pages := by
  unfold navStep at hn
  split at hn
  · exact absurd hn (by simp)
  · split at hn
    · simp only [StepOutcome.next.injEq] at hn
      rw [← hn]
    · split at hn
      · simp only [StepOutcome.next.injEq] at hn
        rw [← hn]
      · exact absurd hn (by simp)

theorem search_step_total_pages {env : Env} {q : Option String}
    {st st' : BrowseState} {inp : Input}
    (h : (search_step env q st inp).outcome = .next st') :
    st'.total_pages = st.total_pages := by
  cases inp with
  | interrupt => exact absurd h (by simp [search_step])
  | line s =>
    simp only [search_step] at h
    split at h
    · split at h
      · split at h
        · simp only [StepOutcome.next.injEq] at h
          rw [← h]
        · exact absurd h (by simp)
      · exact navStep_next_total_pages h
    · exact navStep_next_total_pages h

/-- If the dict is empty before an iteration, it is empty after: the only
thing that ever touches it is `get_search_results`, which preserves it. -/
theorem navStep_next_row_map {env : Env} {q : Option String}
    {st st' : BrowseState} {s : String}
    (hn : (navStep env q st s).outcome = .next st') :
    st'.row_map = st.row_map := by
  unfold navStep at hn
  split at hn
  · exact absurd hn (by simp)
  · split at hn
    · simp only [StepOutcome.next.injEq] at hn
      rw [← hn]
    · split at hn
      · rename_i r hres
        simp only [StepOutcome.next.injEq] at hn
        rw [← hn]
        exact get_search_results_ok_map hres
      · exact absurd hn (by simp)

theorem search_step_row_map {env : Env} {q : Option String}
    {st st' : BrowseState} {inp : Input}
    (h : (search_step env q st inp).outcome = .next st') :
    st'.row_map = st.row_map := by
  cases inp with
  | interrupt => exact absurd h (by simp [search_step])
  | line s =>
    simp only [search_step] at h
    split at h
    · split at h
      · split at h
        · simp only [StepOutcome.next.injEq] at h
          rw [← h]
        · exact absurd h (by simp)
      · exact navStep_next_row_map h
    · exact navStep_next_row_map h

/-- The dict never changes across the whole loop: any pending state still
holds the dict the loop started with. -/
theorem search_loop_pending_row_map {env : Env} {q : Option String} :
    ∀ (inputs : List Input) (st st' : BrowseState),
      search_loop env q inputs st = .pending st' → st'.row_map = st.row_map
  | [], st, st', h => by
    unfold search_loop at h
    split at h
    · cases h; rfl
    · exact absurd h (by simp)
  | inp :: rest, st, st', h => by
    unfold search_loop at h
    split at h
    · split at h
      · rename_i st1 hstep
        rw [search_loop_pending_row_map rest st1 st' h]
        exact search_step_row_map hstep
      · exact absurd h (by simp)
      · exact absurd h (by simp)
    · exact absurd h (by simp)

/-- A cancel keyword (any letter case) makes `get_next_page` raise
`Abort`. -/
theorem get_next_page_cancel {s : String}
    (h : py_lower s ∈ (["q", "cancel", "c"] : List String))
    (current_page : Int) : get_next_page s current_page = .abort := by
  unfold get_next_page
  simp only [List.mem_cons, List.not_mem_nil, or_false] at h
  rcases h with h | h | h <;> rw [h] <;>
    rw [if_neg (by decide), if_neg (by decide), if_pos (by decide)]

/-- A cancel keyword never parses as an integer. -/
theorem pyInt_cancel_none {s : String}
    (h : py_lower s ∈ (["q", "cancel", "c"] : List String)) :
    pyInt? s = none := by
  cases hp : pyInt? s with
  | none => rfl
  | some n =>
    have hl : py_lower s = s := py_lower_eq_of_pyInt hp
    rw [hl] at h
    have : pyInt? s = none := by
      simp only [List.mem_cons, List.not_mem_nil, or_false] at h
      rcases h with h | h | h <;> rw [h] <;> decide
    rw [this] at hp
    exact Option.noConfusion hp

/-- The navigation branch on an out-of-range target: `continue` with no
state change and no fetch. -/
theorem navStep_out_of_range {env : Env} {q : Option String}
    {st : BrowseState} {s : String} {t : Int}
    (hnp : get_next_page s st.current_page = .page t)
    (hrange : t ≥ st.total_pages ∨ t < 0) :
    navStep env q st s = ⟨.next st, [], []⟩ := by
  unfold navStep
  rw [hnp]
  simp only [if_pos hrange]

/-- The navigation branch on a cancel keyword: the raised `Abort` is
caught by the outer handler, the loop returns, nothing is fetched. -/
theorem navStep_cancel {env : Env} {q : Option String} {st : BrowseState}
    {s : String} (h : py_lower s ∈ (["q", "cancel", "c"] : List String)) :
    navStep env q st s = ⟨.returned, [], []⟩ := by
  unfold navStep
  rw [get_next_page_cancel h st.current_page]

/-- One loop iteration on a cancel keyword: the session returns with no
fetch and no detail display. -/
theorem search_step_cancel {env : Env} {q : Option String} {st : BrowseState}
    {s : String} (h : py_lower s ∈ (["q", "cancel", "c"] : List String)) :
    search_step env q st (.line s) = ⟨.returned, [], []⟩ := by
  simp only [search_step, pyInt_cancel_none h]
  exact navStep_cancel h

/-- One loop iteration on a numeric input that is not a key of the dict:
a silent no-op, state unchanged, nothing fetched, nothing displayed. -/
theorem search_step_unknown_numeric {env : Env} {q : Option String}
    {st : BrowseState} {s : String} {n : Int}
    (hp : pyInt? s = some n) (hmem : st.row_map.find? n = none) :
    search_step env q st (.line s) = ⟨.next st, [], []⟩ := by
  simp only [search_step, hp, hmem]
  exact navStep_out_of_range (t := -1) (get_next_page_of_pyInt hp st.current_page)
    (Or.inr (by norm_num))

/-- One loop iteration on a non-numeric input whose navigation target is
out of range: a silent no-op, state unchanged, nothing fetched. -/
theorem search_step_out_of_range {env : Env} {q : Option String}
    {st : BrowseState} {s : String} {t : Int} (hp : pyInt? s = none)
    (hnp : get_next_page s st.current_page = .page t)
    (hrange : t ≥ st.total_pages ∨ t < 0) :
    search_step env q st (.line s) = ⟨.next st, [], []⟩ := by
  simp only [search_step, hp]
  exact navStep_out_of_range hnp hrange

/-- Unfolding the loop one prompt at a time. -/
theorem search_loop_cons {env : Env} {q : Option String} {st : BrowseState}
    {inp : Input} {rest : List Input} (hc : loopCond st) :
    search_loop env q (inp :: rest) st =
      match (search_step env q st inp).outcome with
      | .next st' => search_loop env q rest st'
      | .returned => .finished
      | .raised e => .raised e := by
  simp only [search_loop]
  rw [if_pos hc]

/-- A loop iteration that returns finishes the session regardless of any
further queued inputs. -/
theorem search_loop_returned {env : Env} {q : Option String}
    {st : BrowseState} {inp : Input} (rest : List Input) (hc : loopCond st)
    (h : (search_step env q st inp).outcome = .returned) :
    search_loop env q (inp :: rest) st = .finished := by
  rw [search_loop_cons hc, h]

/-- A loop iteration that raises kills the session regardless of any
further queued inputs: there is no retry. -/
theorem search_loop_raised {env : Env} {q : Option String}
    {st : BrowseState} {inp : Input} {e : PyError} (rest : List Input)
    (hc : loopCond st) (h : (search_step env q st inp).outcome = .raised e) :
    search_loop env q (inp :: rest) st = .raised e := by
  rw [search_loop_cons hc, h]

/-! Claim theorems. -/

/-- C1: the claim says that after navigating to a valid page `p` the
row-index-to-listing-id map holds exactly `min(10, total_results - p*10)`
entries keyed `p*10+1 .. p*10+k`.  The code does not do this: at the
failing input (a page-0 fetch answered ok with three listings, so the
claim requires three entries keyed 1..3), the dict returned by
`get_search_results` still has zero entries and key 1 resolves to
nothing, because `market_search_formatter` computes the row indices for
display but never assigns into `row_id_to_model_id`. -/
theorem C1_row_map_never_populated :
    ∃ r : Int × RowMap,
      get_search_results smallEnv (some "games") 0 [] = Except.ok r ∧
      RowMap.size r.2 = 0 ∧
      RowMap.size r.2 ≠ min 10 3 ∧
      RowMap.find? r.2 1 = none ∧ RowMap.find? r.2 2 = none ∧
      RowMap.find? r.2 3 = none :=
  ⟨(1, []), rfl, rfl, by decide, rfl, rfl, rfl⟩

/-- C5: a prompt input equal to `q`, `cancel` or `c` in any letter case
terminates the session from any browsing state: the iteration returns
(the raised `Abort` is caught by the loop's handler) with no fetch and no
detail display, and the loop finishes regardless of any further queued
inputs. -/
theorem C5_cancel_terminates {env : Env} {q : Option String}
    {st : BrowseState} {s : String} (rest : List Input) (hc : loopCond st)
    (h : py_lower s ∈ (["q", "cancel", "c"] : List String)) :
    search_step env q st (.line s) = ⟨.returned, [], []⟩ ∧
    search_loop env q (.line s :: rest) st = .finished := by
  have hstep := @search_step_cancel env q st s h
  exact ⟨hstep, search_loop_returned rest hc (by rw [hstep])⟩

/-- C5 witness: cancelling with `Q` from page 0 of 2 ends the session even
with further inputs queued. -/
theorem C5_cancel_terminates_witness :
    search_step demoEnv (some "games") ⟨0, 2, []⟩ (.line "Q") =
      ⟨.returned, [], []⟩ ∧
    search_loop demoEnv (some "games") [.line "Q", .line "n"] ⟨0, 2, []⟩ =
      .finished :=
  C5_cancel_terminates [Input.line "n"] (by constructor <;> decide) (by decide)

/-- C7: navigation-keyword parsing is case-insensitive and maps the
forward aliases to `current_page + 1`, the backward aliases to
`current_page - 1`, and every other non-cancel input to the `-1`
sentinel. -/
theorem C7_nav_keyword_parsing (s : String) (c : Int) :
    ((py_lower s = "n" ∨ py_lower s = "next" ∨ py_lower s = "f" ∨
        py_lower s = "forward") → get_next_page s c = .page (c + 1)) ∧
    ((py_lower s = "p" ∨ py_lower s = "previous" ∨ py_lower s = "b" ∨
        py_lower s = "back") → get_next_page s c = .page (c - 1)) ∧
    (py_lower s ∉ (["n", "next", "f", "forward", "p", "previous", "b",
        "back", "q", "cancel", "c"] : List String) →
      get_next_page s c = .page (-1)) := by
  refine ⟨?_, ?_, ?_⟩
  · intro h
    unfold get_next_page
    rw [if_pos]
    rcases h with h | h | h | h <;> simp [h]
  · intro h
    unfold get_next_page
    rw [if_neg, if_pos]
    · rcases h with h | h | h | h <;> simp [h]
    · intro hmem
      simp only [List.mem_cons, List.not_mem_nil, or_false] at hmem
      rcases h with h | h | h | h <;> rw [h] at hmem <;> rcases hmem with
        h1 | h1 | h1 | h1 <;> exact absurd h1 (by decide)
  · intro h
    unfold get_next_page
    rw [if_neg, if_neg, if_neg]
    · intro hmem
      exact h (by simp only [List.mem_cons] at hmem ⊢; tauto)
    · intro hmem
      exact h (by simp only [List.mem_cons] at hmem ⊢; tauto)
    · intro hmem
      exact h (by simp only [List.mem_cons] at hmem ⊢; tauto)

/-- C7 witness: `NEXT` moves forward, `Back` moves backward, `hello` is
the `-1` sentinel. -/
theorem C7_nav_keyword_parsing_witness :
    get_next_page "NEXT" 3 = .page 4 ∧
    get_next_page "Back" 3 = .page 2 ∧
    get_next_page "hello" 3 = .page (-1) :=
  ⟨(C7_nav_keyword_parsing "NEXT" 3).1 (by decide),
   (C7_nav_keyword_parsing "Back" 3).2.1 (by decide),
   (C7_nav_keyword_parsing "hello" 3).2.2 (by decide)⟩

/-- C10: for an ok detail response, the rendered status field reads
`Active` exactly when all three of `is_active`, `is_up`, `is_healthy` are
true, and reads `Inactive` otherwise. -/
theorem C10_active_status (env : Env) (listing_id : Nat)
    (hok : (env.detail listing_id).ok = true) :
    ∃ d : RenderedDetail,
      display_search_info env listing_id = Except.ok d ∧
      (d.is_active = "Status       : Active" ↔
        ((env.detail listing_id).json.is_active = true ∧
         (env.detail listing_id).json.is_up = true ∧
         (env.detail listing_id).json.is_healthy = true)) ∧
      (d.is_active = "Status       : Active" ∨
       d.is_active = "Status       : Inactive") := by
  unfold display_search_info
  rw [if_pos hok]
  cases hflags : (env.detail listing_id).json.is_active &&
      ((env.detail listing_id).json.is_up &&
       (env.detail listing_id).json.is_healthy) with
  | true =>
    simp only [Bool.and_eq_true] at hflags
    refine ⟨_, rfl, ?_, ?_⟩
    · simp only [click_style, hflags.1, hflags.2.1, hflags.2.2, Bool.and_self,
        if_true]
      decide
    · left
      simp only [click_style, hflags.1, hflags.2.1, hflags.2.2, Bool.and_self,
        if_true]
      decide
  | false =>
    refine ⟨_, rfl, ?_, ?_⟩
    · have hcond : ¬ ((env.detail listing_id).json.is_active &&
          (env.detail listing_id).json.is_up &&
          (env.detail listing_id).json.is_healthy) = true := by
        rw [Bool.and_assoc, hflags]
        decide
      simp only [click_style, if_neg hcond]
      constructor
      · intro habs
        exact absurd habs (by decide)
      · rintro ⟨h1, h2, h3⟩
        rw [h1, h2, h3] at hcond
        exact absurd rfl hcond
    · right
      have hcond : ¬ ((env.detail listing_id).json.is_active &&
          (env.detail listing_id).json.is_up &&
          (env.detail listing_id).json.is_healthy) = true := by
        rw [Bool.and_assoc, hflags]
        decide
      simp only [click_style, if_neg hcond]
      decide

/-- C10 witness: the demo detail record (all flags true) renders an
`Active` status line. -/
theorem C10_active_status_witness :
    ∃ d : RenderedDetail,
      display_search_info demoEnv 0 = Except.ok d ∧
      (d.is_active = "Status       : Active" ↔
        ((demoEnv.detail 0).json.is_active = true ∧
         (demoEnv.detail 0).json.is_up = true ∧
         (demoEnv.detail 0).json.is_healthy = true)) ∧
      (d.is_active = "Status       : Active" ∨
       d.is_active = "Status       : Inactive") :=
  C10_active_status demoEnv 0 rfl

/-- C2: the row map never carries entries of a previously displayed page
across a page change — in this code in the strongest possible sense:
every state the loop can reach still holds the initial empty dict
(`market_search_formatter` never inserts and every fetch returns the dict
unchanged), so no row key at all, in particular none that belonged to an
earlier page, resolves to a listing id, and entries are never merged or
accumulated. -/
theorem C2_no_stale_row_keys {env : Env} {q : Option String}
    {inputs : List Input} {st : BrowseState}
    (h : searchSession env q inputs = .loopResult (.pending st)) :
    ∀ k : Int, RowMap.find? st.row_map k = none := by
  intro k
  unfold searchSession at h
  split at h
  · exact absurd h (by simp)
  · rename_i r hinit
    split at h
    · exact absurd h (by simp)
    · simp only [SessionResult.loopResult.injEq] at h
      have hmap : st.row_map = r.2 :=
        search_loop_pending_row_map inputs ⟨0, r.1, r.2⟩ st h
      have hnil : r.2 = [] := get_search_results_ok_map hinit
      rw [hmap, hnil]
      rfl

/-- C2 witness: after fetching page 0 and navigating to page 1 of the
demo marketplace, row key 1 of page 0 does not resolve. -/
theorem C2_no_stale_row_keys_witness :
    RowMap.find? (BrowseState.mk 1 2 []).row_map 1 = none :=
  @C2_no_stale_row_keys demoEnv (some "games") [Input.line "n"] ⟨1, 2, []⟩
    (by rfl) 1

/-- C3: `total_pages` is fixed by the initial fetch.  First: no loop
iteration that continues browsing ever changes `total_pages` (the
in-loop fetch's returned count is discarded).  Second: when a mid-session
navigation to an in-range page `t` is answered ok with zero results (so
the discarded return value is 0), the iteration still sets
`current_page := t`, keeps `total_pages` and the row map, and issues
exactly that one fetch.  Third: in that situation the loop goes on
prompting with the initial `total_pages` still in force. -/
theorem C3_total_pages_set_once {env : Env} {q : Option String} :
    (∀ (st st' : BrowseState) (inp : Input),
        (search_step env q st inp).outcome = .next st' →
        st'.total_pages = st.total_pages) ∧
    (∀ (st : BrowseState) (s : String) (t : Int),
        pyInt? s = none →
        get_next_page s st.current_page = .page t →
        ¬ (t ≥ st.total_pages ∨ t < 0) →
        (env.search q t).ok = true →
        (env.search q t).results = some [] →
        search_step env q st (.line s) =
          ⟨.next ⟨t, st.total_pages, st.row_map⟩, [t], []⟩) ∧
    (∀ (st : BrowseState) (s : String) (t : Int),
        loopCond st →
        pyInt? s = none →
        get_next_page s st.current_page = .page t →
        ¬ (t ≥ st.total_pages ∨ t < 0) →
        (env.search q t).ok = true →
        (env.search q t).results = some [] →
        search_loop env q [.line s] st =
          .pending ⟨t, st.total_pages, st.row_map⟩) := by
  have hstep : ∀ (st : BrowseState) (s : String) (t : Int),
      pyInt? s = none →
      get_next_page s st.current_page = .page t →
      ¬ (t ≥ st.total_pages ∨ t < 0) →
      (env.search q t).ok = true →
      (env.search q t).results = some [] →
      search_step env q st (.line s) =
        ⟨.next ⟨t, st.total_pages, st.row_map⟩, [t], []⟩ := by
    intro st s t hp hnp hrange hok hres
    have hfetch : get_search_results env q t st.row_map =
        .ok (0, st.row_map) := by
      unfold get_search_results
      rw [if_pos hok, hres]
      simp
    simp only [search_step, hp]
    unfold navStep
    rw [hnp]
    simp only [if_neg hrange, hfetch]
  refine ⟨fun st st' inp h => search_step_total_pages h, hstep, ?_⟩
  intro st s t hc hp hnp hrange hok hres
  rw [search_loop_cons hc, hstep st s t hp hnp hrange hok hres]
  simp only
  unfold search_loop
  rw [if_pos]
  constructor
  · simpa using not_or.mp hrange |>.2
  · simpa using not_or.mp hrange |>.1

/-- C3 witness: on the shrinking demo service (three pages initially,
empty afterwards), navigating from page 0 to page 1 fetches page 1,
discards the returned zero count, moves to page 1 with the initial three
pages still in force, and keeps prompting. -/
theorem C3_total_pages_set_once_witness :
    search_step shrinkEnv (some "games") ⟨0, 3, []⟩ (.line "n") =
      ⟨.next ⟨1, 3, []⟩, [1], []⟩ ∧
    search_loop shrinkEnv (some "games") [.line "n"] ⟨0, 3, []⟩ =
      .pending ⟨1, 3, []⟩ :=
  ⟨(@C3_total_pages_set_once shrinkEnv (some "games")).2.1
      ⟨0, 3, []⟩ "n" 1 (by decide) (by decide) (by decide) rfl rfl,
   (@C3_total_pages_set_once shrinkEnv (some "games")).2.2
      ⟨0, 3, []⟩ "n" 1 (by constructor <;> decide) (by decide) (by decide)
      (by decide) rfl rfl⟩

/-- C4: each endpoint call raises `ServerRequestError` exactly when its
response is not ok, and an iteration that raises kills the whole loop
regardless of any queued further inputs: the loop catches only `Abort`,
so the error propagates out of `_search` with no retry. -/
theorem C4_request_failed_propagates {env : Env} {q : Option String} :
    (∀ (p : Int) (m : RowMap),
        get_search_results env q p m = .error .serverRequestError ↔
          (env.search q p).ok = false) ∧
    (∀ listing_id : Nat,
        display_search_info env listing_id = .error .serverRequestError ↔
          (env.detail listing_id).ok = false) ∧
    (∀ (st : BrowseState) (inp : Input) (rest : List Input) (e : PyError),
        loopCond st →
        (search_step env q st inp).outcome = .raised e →
        search_loop env q (inp :: rest) st = .raised e) :=
  ⟨fun p m => get_search_results_error_iff env q p m,
   fun listing_id => display_search_info_error_iff env listing_id,
   fun _ _ rest _ hc h => search_loop_raised rest hc h⟩

/-- C4 witness: on the failing demo service the page-1 fetch triggered by
`n` raises, and the session dies with the queued `p` never processed. -/
theorem C4_request_failed_propagates_witness :
    get_search_results failEnv none 1 [] = .error .serverRequestError ∧
    display_search_info failEnv 7 = .error .serverRequestError ∧
    search_loop failEnv none [.line "n", .line "p"] ⟨0, 2, []⟩ =
      .raised .serverRequestError :=
  ⟨((@C4_request_failed_propagates failEnv none).1 1 []).mpr rfl,
   ((@C4_request_failed_propagates failEnv none).2.1 7).mpr rfl,
   (@C4_request_failed_propagates failEnv none).2.2
     ⟨0, 2, []⟩ (.line "n") [.line "p"] .serverRequestError
     (by constructor <;> decide) (by rfl)⟩

/-- C6: when the initial page-0 fetch reports a page count below 1 (zero
results), the session ends at once, identically for every possible input
list: the user is never prompted. -/
theorem C6_zero_results_no_prompt {env : Env} {q : Option String}
    {tp : Int} {m : RowMap}
    (h : get_search_results env q 0 [] = .ok (tp, m)) (hlt : tp < 1) :
    ∀ inputs : List Input, searchSession env q inputs = .noResults := by
  intro inputs
  unfold searchSession
  rw [h]
  simp only [if_pos hlt]

/-- C6 witness: a query with no matches ends the session before any
prompt, whatever input would have come. -/
theorem C6_zero_results_no_prompt_witness :
    searchSession emptyEnv (some "nothing") [.line "n", .line "1"] =
      .noResults :=
  C6_zero_results_no_prompt (by rfl) (by decide) [Input.line "n", Input.line "1"]

/-- C8: an out-of-range navigation target (below 0 or at/above
`total_pages`) is ignored: the iteration leaves `current_page`,
`total_pages` and the row map untouched, issues no fetch and no detail
request, and the loop simply re-prompts in the same state. -/
theorem C8_out_of_range_ignored {env : Env} {q : Option String}
    {st : BrowseState} {s : String} {t : Int}
    (hp : pyInt? s = none)
    (hnp : get_next_page s st.current_page = .page t)
    (hrange : t < 0 ∨ t ≥ st.total_pages) :
    search_step env q st (.line s) = ⟨.next st, [], []⟩ ∧
    (∀ rest : List Input, loopCond st →
      search_loop env q (.line s :: rest) st = search_loop env q rest st) := by
  have hstep := @search_step_out_of_range env q st s t hp hnp
    (Or.symm hrange)
  refine ⟨hstep, fun rest hc => ?_⟩
  rw [search_loop_cons hc, hstep]

/-- C8 witness: `p` on page 0 of 2 targets page -1; the state stays put
and nothing is fetched. -/
theorem C8_out_of_range_ignored_witness :
    search_step demoEnv (some "games") ⟨0, 2, []⟩ (.line "p") =
      ⟨.next ⟨0, 2, []⟩, [], []⟩ ∧
    (∀ rest : List Input, loopCond ⟨0, 2, []⟩ →
      search_loop demoEnv (some "games") (.line "p" :: rest) ⟨0, 2, []⟩ =
        search_loop demoEnv (some "games") rest ⟨0, 2, []⟩) :=
  @C8_out_of_range_ignored demoEnv (some "games") ⟨0, 2, []⟩ "p" (-1)
    (by decide) (by decide) (by decide)

/-- C9: an input that parses as an integer `n` that is not a key of the
row map is a silent no-op: no detail record is fetched or displayed, no
fetch is issued, the state is unchanged, and the input falls through to
navigation parsing, which yields the `-1` sentinel. -/
theorem C9_unknown_numeric_noop {env : Env} {q : Option String}
    {st : BrowseState} {s : String} {n : Int}
    (hp : pyInt? s = some n) (hmem : RowMap.find? st.row_map n = none) :
    search_step env q st (.line s) = ⟨.next st, [], []⟩ ∧
    get_next_page s st.current_page = .page (-1) :=
  ⟨search_step_unknown_numeric hp hmem,
   get_next_page_of_pyInt hp st.current_page⟩

/-- C9 witness: input `42` with an empty row map is a silent no-op on
page 0 of 2. -/
theorem C9_unknown_numeric_noop_witness :
    search_step demoEnv (some "games") ⟨0, 2, []⟩ (.line "42") =
      ⟨.next ⟨0, 2, []⟩, [], []⟩ ∧
    get_next_page "42" 0 = .page (-1) :=
  @C9_unknown_numeric_noop demoEnv (some "games") ⟨0, 2, []⟩ "42" 42
    (by decide) (by rfl)

end TwoOneSearch
